import Mathlib

/-!
Verification of the Framework Laptop EC bridge (framework_laptop.c).

The driver talks to a ChromeOS embedded controller (EC) through a lazily
resolved transport (the global `ec_device` plus its `cros_ec_device`).
We embed each driver function shallowly: the transport is a record holding
whether `ec_device` resolved, the status the transport returns for a
command exchange (`cros_ec_cmd_xfer_status` / `cros_ec_cmd`) and for the
memory-mapped read (`cmd_readmem`), and the response payloads a mock EC
would produce.  C output parameters (`*val`) are modelled by passing the
old cell contents in and returning the new contents, so "left unchanged"
is provable.  Return values are `Int` exactly as the C `ssize_t`/`int`
returns are: negative errno on failure, the emitted value or count on
success.  Where a claim says "the transport is never invoked", the
operation additionally returns the list of payloads delivered to the
transport, so an empty list means no exchange happened.
-/

namespace FrameworkLaptop

/-- Linux errno values used by the driver (returned negated). -/
def ENODEV : Int := 19

/-- errno EIO. -/
def EIO : Int := 5

/-- errno EINVAL. -/
def EINVAL : Int := 22

/-- From cros_ec_commands.h: number of entries in the memory-mapped fan table. -/
def EC_FAN_SPEED_ENTRIES : Nat := 4

/-- From cros_ec_commands.h: fan-table sentinel, fan not present. -/
def EC_FAN_SPEED_NOT_PRESENT : Nat := 0xffff

/-- From cros_ec_commands.h: fan-table sentinel, fan stalled. -/
def EC_FAN_SPEED_STALLED : Nat := 0xfffe

/-- From cros_ec_commands.h: maximum PWM duty value. -/
def EC_PWM_MAX_DUTY : Nat := 0xffff

/-- From cros_ec_commands.h: base offset of the fan table in EC memory. -/
def EC_MEMMAP_FAN : Nat := 0x10

/-- enum ec_chg_limit_control_modes, CHG_LIMIT_DISABLE = BIT(0). -/
def CHG_LIMIT_DISABLE : Nat := 1

/-- enum ec_chg_limit_control_modes, CHG_LIMIT_SET_LIMIT = BIT(1). -/
def CHG_LIMIT_SET_LIMIT : Nat := 2

/-- enum ec_chg_limit_control_modes, CHG_LIMIT_GET_LIMIT = BIT(3). -/
def CHG_LIMIT_GET_LIMIT : Nat := 8

/-- enum ec_chg_limit_control_modes, CHG_LIMIT_OVERRIDE = BIT(7). -/
def CHG_LIMIT_OVERRIDE : Nat := 128

/-- framework_laptop.c attrs-per-fan constant FW_ATTRS_PER_FAN. -/
def FW_ATTRS_PER_FAN : Nat := 8

/--
The transport as the driver sees it: `present` is whether the global
`ec_device` is non-null; `xferStatus` is the status a command exchange
returns; `readmemStatus` is the status `cmd_readmem` returns; `fans i` is
the u16 entry at offset `EC_MEMMAP_FAN + 2*i` that a successful
`cmd_readmem` yields; `duty`, `chgMaxPercentage` and `targetRpm` are the
response fields a successful exchange yields for EC_CMD_PWM_GET_DUTY,
EC_CMD_CHARGE_LIMIT_CONTROL and EC_CMD_PWM_GET_FAN_TARGET_RPM.
-/
structure CrosEC where
  present : Bool
  xferStatus : Int
  readmemStatus : Int
  fans : Nat → Nat
  duty : Nat
  chgMaxPercentage : Nat
  targetRpm : Nat

/--
charge_limit_control (framework_laptop.c:68-103): sends
EC_CMD_CHARGE_LIMIT_CONTROL with the given modes and max_percentage.
Returns the C return value together with the list of
(modes, max_percentage) payloads delivered to the transport.
`-ENODEV` if the handle is unresolved (no exchange), `- EIO` if the
exchange fails, otherwise the response max_percentage.
-/
def charge_limit_control (ec : CrosEC) (modes maxPercentage : Nat) :
    Int × List (Nat × Nat) :=
  if ec.present = false then (-ENODEV, [])
  else if ec.xferStatus < 0 then (- EIO, [(modes, maxPercentage)])
  else ((ec.chgMaxPercentage : Int), [(modes, maxPercentage)])

/--
The C local `int value` receives the result of `kstrtouint`, an unsigned
parse: the stored bit pattern of a parsed value `v < 2^32`, read back as a
signed int, is `v` when `v < 2^31` and `v - 2^32` otherwise.
-/
def uintAsInt (v : Nat) : Int :=
  if v < 2 ^ 31 then (v : Int) else (v : Int) - 2 ^ 32

/--
battery_set_threshold (framework_laptop.c:195-212) after a successful
`kstrtouint` parse of the buffer into `v` (so `v < 2^32`): the `value >
100` test reads the int variable, hence compares `uintAsInt v`; on
passing it calls charge_limit_control with CHG_LIMIT_SET_LIMIT and
`(uint8_t)value = v % 256`, propagates a negative result, and otherwise
returns `count`.  Second component: payloads delivered to the transport.
-/
def battery_set_threshold (ec : CrosEC) (v : Nat) (count : Nat) :
    Int × List (Nat × Nat) :=
  if uintAsInt v > 100 then (-EINVAL, [])
  else
    let r := charge_limit_control ec CHG_LIMIT_SET_LIMIT (v % 256)
    if r.1 < 0 then (r.1, r.2) else ((count : Int), r.2)

/--
kb_led_get (framework_laptop.c:106-144): EC_CMD_PWM_GET_DUTY for the
keyboard light.  Jumps to `out` (returns brightness 0) when the handle is
unresolved or the exchange fails; otherwise returns
`resp->duty * 100 / EC_PWM_MAX_DUTY` (C unsigned division, i.e. floor).
-/
def kb_led_get (ec : CrosEC) : Nat :=
  if ec.present = false then 0
  else if ec.xferStatus < 0 then 0
  else ec.duty * 100 / EC_PWM_MAX_DUTY

/--
kb_led_set (framework_laptop.c:147-181): EC_CMD_PWM_SET_KEYBOARD_BACKLIGHT
with `params->percent = value` (a uint8_t, so `value % 256`).  Returns
`- EIO` when the handle is unresolved (no exchange) and `- EIO` when the
exchange fails; 0 on success.  Second component: the percent payloads
delivered to the transport.
-/
def kb_led_set (ec : CrosEC) (value : Nat) : Int × List Nat :=
  if ec.present = false then (- EIO, [])
  else if ec.xferStatus < 0 then (- EIO, [value % 256])
  else (0, [value % 256])

/--
ec_get_fan_speed (framework_laptop.c:263-273): reads the u16 at
`EC_MEMMAP_FAN + 2*idx` via `cmd_readmem` into `*val` and returns the
readmem status directly.  `val` is the old cell contents; it is written
only when the read succeeds.
-/
def ec_get_fan_speed (ec : CrosEC) (idx : Nat) (val : Nat) : Int × Nat :=
  if ec.present = false then (-ENODEV, val)
  else if ec.readmemStatus < 0 then (ec.readmemStatus, val)
  else (ec.readmemStatus, ec.fans idx)

/--
fw_fan_speed_show (framework_laptop.c:275-291): `- EIO` when the read
fails; emits 0 when the value is either sentinel, else the raw value.
`v0` is the uninitialised stack cell the C declares for `val`.
-/
def fw_fan_speed_show (ec : CrosEC) (idx : Nat) (v0 : Nat) : Int :=
  let r := ec_get_fan_speed ec idx v0
  if r.1 < 0 then - EIO
  else if r.2 = EC_FAN_SPEED_NOT_PRESENT ∨ r.2 = EC_FAN_SPEED_STALLED then 0
  else (r.2 : Int)

/--
fw_fan_fault_show (framework_laptop.c:376-388): `- EIO` when the read
fails; emits `val == EC_FAN_SPEED_NOT_PRESENT` as 1/0.
-/
def fw_fan_fault_show (ec : CrosEC) (idx : Nat) (v0 : Nat) : Int :=
  let r := ec_get_fan_speed ec idx v0
  if r.1 < 0 then - EIO
  else if r.2 = EC_FAN_SPEED_NOT_PRESENT then 1 else 0

/--
fw_fan_alarm_show (framework_laptop.c:391-403): `- EIO` when the read
fails; emits `val == EC_FAN_SPEED_STALLED` as 1/0.
-/
def fw_fan_alarm_show (ec : CrosEC) (idx : Nat) (v0 : Nat) : Int :=
  let r := ec_get_fan_speed ec idx v0
  if r.1 < 0 then - EIO
  else if r.2 = EC_FAN_SPEED_STALLED then 1 else 0

/--
ec_get_target_rpm (framework_laptop.c:315-335): sends
EC_CMD_PWM_GET_FAN_TARGET_RPM (version 0, no fan addressing), writes
`resp.rpm` to `*val` on success.  Result: ((status, new val), number of
transport exchanges performed).
-/
def ec_get_target_rpm (ec : CrosEC) (val : Nat) : (Int × Nat) × Nat :=
  if ec.present = false then ((-ENODEV, val), 0)
  else if ec.xferStatus < 0 then ((- EIO, val), 1)
  else ((0, ec.targetRpm), 1)

/--
fw_fan_target_show (framework_laptop.c:356-373): `-EINVAL` for any slot
other than 0 (before any transport use); otherwise reads the target rpm
and emits it, or `- EIO` on failure.  Result: (emitted value or errno,
number of transport exchanges performed).
-/
def fw_fan_target_show (ec : CrosEC) (idx : Nat) (v0 : Nat) : Int × Nat :=
  if idx ≠ 0 then (-EINVAL, 0)
  else
    let r := ec_get_target_rpm ec v0
    if r.1.1 < 0 then (- EIO, r.2)
    else ((r.1.2 : Int), r.2)

/--
The scan loop inside ec_count_fans (framework_laptop.c:513-518): walk the
fan entries in index order, returning the index of the first entry equal
to EC_FAN_SPEED_NOT_PRESENT, or nothing if the loop falls through.
-/
def findNotPresent : List Nat → Nat → Option Nat
  | [], _ => none
  | f :: rest, i =>
    if f = EC_FAN_SPEED_NOT_PRESENT then some i else findNotPresent rest (i + 1)

/-- The EC_FAN_SPEED_ENTRIES u16 entries one `cmd_readmem` of the whole fan table yields. -/
def fanTable (ec : CrosEC) : List Nat :=
  [ec.fans 0, ec.fans 1, ec.fans 2, ec.fans 3]

/--
ec_count_fans (framework_laptop.c:500-522): one `cmd_readmem` of the whole
fan table, then the scan loop; writes the first sentinel index (or
EC_FAN_SPEED_ENTRIES when the loop falls through) to `*val` and returns 0.
`-ENODEV` / `- EIO` on failure, leaving `*val` as it was.
-/
def ec_count_fans (ec : CrosEC) (val : Nat) : Int × Nat :=
  if ec.present = false then (-ENODEV, val)
  else if ec.readmemStatus < 0 then (- EIO, val)
  else
    match findNotPresent (fanTable ec) 0 with
    | some i => (0, i)
    | none => (0, EC_FAN_SPEED_ENTRIES)

/-- The eight per-fan hwmon attribute kinds, in the source's declaration order. -/
inductive FanAttrKind where
  | input
  | target
  | fault
  | alarm
  | pwm_enable
  | pwm
  | pwm_min
  | pwm_max
  deriving DecidableEq, Repr

/--
fw_hwmon_attrs (framework_laptop.c:565-604): the static attribute table,
(EC_FAN_SPEED_ENTRIES * FW_ATTRS_PER_FAN) + 1 pointers, one entry per
(fan index, attribute kind) plus the trailing NULL, modelled as
`Option (Nat × FanAttrKind)` with `none` for NULL.
-/
def fw_hwmon_attrs : List (Option (Nat × FanAttrKind)) :=
  [some (0, .input), some (0, .target), some (0, .fault), some (0, .alarm),
   some (0, .pwm_enable), some (0, .pwm), some (0, .pwm_min), some (0, .pwm_max),
   some (1, .input), some (1, .target), some (1, .fault), some (1, .alarm),
   some (1, .pwm_enable), some (1, .pwm), some (1, .pwm_min), some (1, .pwm_max),
   some (2, .input), some (2, .target), some (2, .fault), some (2, .alarm),
   some (2, .pwm_enable), some (2, .pwm), some (2, .pwm_min), some (2, .pwm_max),
   some (3, .input), some (3, .target), some (3, .fault), some (3, .alarm),
   some (3, .pwm_enable), some (3, .pwm), some (3, .pwm_min), some (3, .pwm_max),
   none]

/--
The truncation step of framework_probe (framework_laptop.c:695):
`fw_hwmon_attrs[fan_count * FW_ATTRS_PER_FAN] = NULL` on the static table.
-/
def truncate_hwmon_attrs (fanCount : Nat) : List (Option (Nat × FanAttrKind)) :=
  fw_hwmon_attrs.set (fanCount * FW_ATTRS_PER_FAN) none

/--
What the external hwmon publisher sees: an attribute array is read in
order up to (excluding) the first NULL.
-/
def publishedAttrs (l : List (Option (Nat × FanAttrKind))) : List (Nat × FanAttrKind) :=
  (l.takeWhile Option.isSome).filterMap id

/--
Modelled from the spec: the first `n` fans' 8 attributes each, in the
fixed order {input, target, fault, alarm, pwm_enable, pwm, pwm_min,
pwm_max} (the refinement target the table builder is compared with).
-/
def specFanAttrOrder : List FanAttrKind :=
  [.input, .target, .fault, .alarm, .pwm_enable, .pwm, .pwm_min, .pwm_max]

/-- Modelled from the spec: the table the publisher must see for fan count `n`. -/
def specPublished (n : Nat) : List (Nat × FanAttrKind) :=
  (List.range n).flatMap fun i => specFanAttrOrder.map fun k => (i, k)

/-- A resolved transport whose exchanges and reads succeed (mock EC for witnesses). -/
def ecOk : CrosEC :=
  { present := true
    xferStatus := 0
    readmemStatus := 0
    fans := fun i => 1200 + 100 * i
    duty := 0
    chgMaxPercentage := 80
    targetRpm := 5000 }

/-- A transport whose handle never resolved (`ec_device` null). -/
def ecAbsent : CrosEC :=
  { present := false
    xferStatus := 0
    readmemStatus := 0
    fans := fun _ => 0
    duty := 0
    chgMaxPercentage := 0
    targetRpm := 0 }

/-- A resolved transport whose exchanges and memory reads all fail. -/
def ecFailing : CrosEC :=
  { present := true
    xferStatus := -1
    readmemStatus := -1
    fans := fun _ => 0
    duty := 0
    chgMaxPercentage := 0
    targetRpm := 0 }

/-- A resolved, succeeding transport with fans 0 and 1 populated and fan 2 absent. -/
def ecTwoFans : CrosEC :=
  { ecOk with fans := fun i => if i < 2 then 1200 + 100 * i else EC_FAN_SPEED_NOT_PRESENT }

/-!  Theorems  -/

/--
Evaluation lemma: on a resolved transport with a succeeding memory read,
ec_count_fans succeeds and the count is the first-sentinel scan of the
four table entries.
-/
theorem ec_count_fans_eval (ec : CrosEC) (v : Nat)
    (hp : ec.present = true) (hr : 0 ≤ ec.readmemStatus) :
    ec_count_fans ec v =
      (0,
        if ec.fans 0 = EC_FAN_SPEED_NOT_PRESENT then 0
        else if ec.fans 1 = EC_FAN_SPEED_NOT_PRESENT then 1
        else if ec.fans 2 = EC_FAN_SPEED_NOT_PRESENT then 2
        else if ec.fans 3 = EC_FAN_SPEED_NOT_PRESENT then 3
        else EC_FAN_SPEED_ENTRIES) := by
  have hr' : ¬ ec.readmemStatus < 0 := by omega
  simp only [ec_count_fans, hp, hr', fanTable, findNotPresent, Bool.true_eq_false,
    if_false, if_true]
  split_ifs <;> rfl

/-- First-sentinel characterisation of the nested-if scan over four entries. -/
theorem firstIdx_spec (f : Nat → Nat) (c : Nat)
    (hc : c =
      (if f 0 = EC_FAN_SPEED_NOT_PRESENT then 0
       else if f 1 = EC_FAN_SPEED_NOT_PRESENT then 1
       else if f 2 = EC_FAN_SPEED_NOT_PRESENT then 2
       else if f 3 = EC_FAN_SPEED_NOT_PRESENT then 3
       else EC_FAN_SPEED_ENTRIES)) :
    c ≤ EC_FAN_SPEED_ENTRIES ∧
    (∀ j, j < c → f j ≠ EC_FAN_SPEED_NOT_PRESENT) ∧
    (c < EC_FAN_SPEED_ENTRIES → f c = EC_FAN_SPEED_NOT_PRESENT) ∧
    ((∀ j, j < EC_FAN_SPEED_ENTRIES → f j ≠ EC_FAN_SPEED_NOT_PRESENT) →
      c = EC_FAN_SPEED_ENTRIES) := by
  simp only [EC_FAN_SPEED_ENTRIES] at hc ⊢
  split_ifs at hc with h0 h1 h2 h3
  · subst hc
    exact ⟨by omega, fun j hj => absurd hj (by omega), fun _ => h0,
      fun H => absurd h0 (H 0 (by omega))⟩
  · subst hc
    refine ⟨by omega, fun j hj => ?_, fun _ => h1, fun H => absurd h1 (H 1 (by omega))⟩
    interval_cases j
    exact h0
  · subst hc
    refine ⟨by omega, fun j hj => ?_, fun _ => h2, fun H => absurd h2 (H 2 (by omega))⟩
    interval_cases j
    · exact h0
    · exact h1
  · subst hc
    refine ⟨by omega, fun j hj => ?_, fun _ => h3, fun H => absurd h3 (H 3 (by omega))⟩
    interval_cases j
    · exact h0
    · exact h1
    · exact h2
  · subst hc
    refine ⟨by omega, fun j hj => ?_, fun h => absurd h (by omega), fun _ => rfl⟩
    interval_cases j
    · exact h0
    · exact h1
    · exact h2
    · exact h3

/--
Claim C1: for every 4-entry fan table returned by the memory read,
ec_count_fans returns the index of the first entry equal to the
EC_FAN_SPEED_NOT_PRESENT sentinel, scanning in index order, and returns
EC_FAN_SPEED_ENTRIES (the table length) when no entry equals the
sentinel.
-/
theorem C1_discover_fan_count (ec : CrosEC) (v : Nat)
    (hp : ec.present = true) (hr : 0 ≤ ec.readmemStatus) :
    (ec_count_fans ec v).1 = 0 ∧
    (ec_count_fans ec v).2 ≤ EC_FAN_SPEED_ENTRIES ∧
    (∀ j, j < (ec_count_fans ec v).2 → ec.fans j ≠ EC_FAN_SPEED_NOT_PRESENT) ∧
    ((ec_count_fans ec v).2 < EC_FAN_SPEED_ENTRIES →
      ec.fans ((ec_count_fans ec v).2) = EC_FAN_SPEED_NOT_PRESENT) ∧
    ((∀ j, j < EC_FAN_SPEED_ENTRIES → ec.fans j ≠ EC_FAN_SPEED_NOT_PRESENT) →
      (ec_count_fans ec v).2 = EC_FAN_SPEED_ENTRIES) := by
  rw [ec_count_fans_eval ec v hp hr]
  have H := firstIdx_spec ec.fans _ rfl
  exact ⟨rfl, H.1, H.2.1, H.2.2.1, H.2.2.2⟩

/-- Witness for C1: the two-fan table yields status 0 and count 2. -/
theorem C1_discover_fan_count_witness :
    ecTwoFans.present = true ∧ 0 ≤ ecTwoFans.readmemStatus ∧
    (ec_count_fans ecTwoFans 7).1 = 0 ∧
    (ec_count_fans ecTwoFans 7).2 = 2 := by
  refine ⟨rfl, by decide, (C1_discover_fan_count ecTwoFans 7 rfl (by decide)).1, ?_⟩
  decide

/--
Claim C10: when ec_count_fans fails, whether because the transport handle
is unresolved or because the memory read returns a negative status, the
caller-provided count cell is left unchanged; the count is written only
on the success path.
-/
theorem C10_count_fans_failure_leaves_val (ec : CrosEC) (v : Nat)
    (h : ec.present = false ∨ ec.readmemStatus < 0) :
    (ec_count_fans ec v).1 < 0 ∧ (ec_count_fans ec v).2 = v := by
  rcases h with h | h
  · simp [ec_count_fans, h, ENODEV]
  · rcases hp : ec.present with _ | _
    · simp [ec_count_fans, hp, ENODEV]
    · simp [ec_count_fans, hp, h, EIO]

/-- Witness for C10: an unresolved transport and a failing read both leave the cell at 7. -/
theorem C10_count_fans_failure_leaves_val_witness :
    (ecAbsent.present = false ∨ ecAbsent.readmemStatus < 0) ∧
    (ec_count_fans ecAbsent 7).1 < 0 ∧ (ec_count_fans ecAbsent 7).2 = 7 := by
  exact ⟨Or.inl rfl, C10_count_fans_failure_leaves_val ecAbsent 7 (Or.inl rfl)⟩

/--
Claim C2: for every discovered fan count N in [0, EC_FAN_SPEED_ENTRIES],
placing the terminator at logical index N * FW_ATTRS_PER_FAN makes the
published table exactly the first N fans' 8 attributes each, in the fixed
order {input, target, fault, alarm, pwm_enable, pwm, pwm_min, pwm_max},
and no entry at index N * FW_ATTRS_PER_FAN or beyond is published.
-/
theorem C2_table_truncation (n : Nat) (hn : n ≤ EC_FAN_SPEED_ENTRIES) :
    publishedAttrs (truncate_hwmon_attrs n) = specPublished n ∧
    (publishedAttrs (truncate_hwmon_attrs n)).length = n * FW_ATTRS_PER_FAN := by
  have hn4 : n ≤ 4 := hn
  interval_cases n <;> exact ⟨by decide, by decide⟩

/-- Witness for C2: count 2 publishes exactly fans 0 and 1, 16 entries. -/
theorem C2_table_truncation_witness :
    2 ≤ EC_FAN_SPEED_ENTRIES ∧
    publishedAttrs (truncate_hwmon_attrs 2) = specPublished 2 ∧
    (publishedAttrs (truncate_hwmon_attrs 2)).length = 2 * FW_ATTRS_PER_FAN :=
  ⟨by decide, C2_table_truncation 2 (by decide)⟩

/--
Claim C3 (code bug): the claim says battery_set_threshold succeeds iff
the input is at most 100 and otherwise fails with -EINVAL before the
transport is ever invoked.  The validation holds for parsed values below
2^31 (first two conjuncts), but kstrtouint stores into the signed local
`int value`, so a parsed value of 4294967295 is read back as -1, slips
past the `value > 100` test, and the transport IS invoked with
CHG_LIMIT_SET_LIMIT and max_percentage 255, and the store succeeds.
-/
theorem C3_charge_limit_overflow :
    (battery_set_threshold ecOk 101 1).1 = -EINVAL ∧
    (battery_set_threshold ecOk 101 1).2 = [] ∧
    0 ≤ (battery_set_threshold ecOk 4294967295 1).1 ∧
    (battery_set_threshold ecOk 4294967295 1).2 = [(CHG_LIMIT_SET_LIMIT, 255)] := by
  refine ⟨?_, ?_, ?_, ?_⟩ <;> decide

/--
Claim C4: for every slot and every raw fan-table reading, the fan speed
attribute reports 0 when the raw reading equals either sentinel, and
reports the raw reading unchanged for every non-sentinel value.
-/
theorem C4_fan_speed_sentinels (ec : CrosEC) (idx v0 : Nat)
    (hp : ec.present = true) (hr : 0 ≤ ec.readmemStatus) :
    fw_fan_speed_show ec idx v0 =
      if ec.fans idx = EC_FAN_SPEED_NOT_PRESENT ∨ ec.fans idx = EC_FAN_SPEED_STALLED
      then 0 else (ec.fans idx : Int) := by
  have hr' : ¬ ec.readmemStatus < 0 := by omega
  simp [fw_fan_speed_show, ec_get_fan_speed, hp, hr']

/-- Witness for C4: a stalled fan reads 0, a healthy fan reads its raw rpm. -/
theorem C4_fan_speed_sentinels_witness :
    ecOk.present = true ∧ 0 ≤ ecOk.readmemStatus ∧
    fw_fan_speed_show ecOk 1 0 = 1300 := by
  refine ⟨rfl, by decide, ?_⟩
  rw [C4_fan_speed_sentinels ecOk 1 0 rfl (by decide)]
  decide

/--
Claim C5: for every slot and every raw fan-table reading, fan_fault
reports 1 iff the raw reading equals EC_FAN_SPEED_NOT_PRESENT, fan_alarm
reports 1 iff it equals EC_FAN_SPEED_STALLED, and the two are never both
1 for the same reading.
-/
theorem C5_fault_alarm (ec : CrosEC) (idx v0 : Nat)
    (hp : ec.present = true) (hr : 0 ≤ ec.readmemStatus) :
    (fw_fan_fault_show ec idx v0 = 1 ↔ ec.fans idx = EC_FAN_SPEED_NOT_PRESENT) ∧
    (fw_fan_alarm_show ec idx v0 = 1 ↔ ec.fans idx = EC_FAN_SPEED_STALLED) ∧
    ¬(fw_fan_fault_show ec idx v0 = 1 ∧ fw_fan_alarm_show ec idx v0 = 1) := by
  have hr' : ¬ ec.readmemStatus < 0 := by omega
  have hne : EC_FAN_SPEED_NOT_PRESENT ≠ EC_FAN_SPEED_STALLED := by decide
  simp only [fw_fan_fault_show, fw_fan_alarm_show, ec_get_fan_speed, hp,
    Bool.true_eq_false, if_false, hr', if_true]
  refine ⟨?_, ?_, ?_⟩
  · split_ifs with h
    · simp [h]
    · simp [h]
  · split_ifs with h
    · simp [h]
    · simp [h]
  · rintro ⟨hf, ha⟩
    split_ifs at hf ha with h1 h2
    · exact hne (h1.symm.trans h2)
    all_goals omega

/-- Witness for C5: a not-present reading faults without alarming. -/
theorem C5_fault_alarm_witness :
    ecTwoFans.present = true ∧ 0 ≤ ecTwoFans.readmemStatus ∧
    fw_fan_fault_show ecTwoFans 2 0 = 1 ∧ fw_fan_alarm_show ecTwoFans 2 0 ≠ 1 := by
  have H := C5_fault_alarm ecTwoFans 2 0 rfl (by decide)
  refine ⟨rfl, by decide, H.1.mpr (by decide), fun ha => ?_⟩
  exact absurd (H.2.1.mp ha) (by decide)

/--
Claim C6: for every fan slot other than slot 0, the target-RPM read fails
with -EINVAL and the transport is never invoked; on slot 0, against a
resolved transport whose exchange succeeds, it issues the
get-fan-target-RPM command once and returns the single response value.
-/
theorem C6_target_show (ec : CrosEC) (idx v0 : Nat) :
    (idx ≠ 0 → fw_fan_target_show ec idx v0 = (-EINVAL, 0)) ∧
    (idx = 0 → ec.present = true → 0 ≤ ec.xferStatus →
      fw_fan_target_show ec idx v0 = ((ec.targetRpm : Int), 1)) := by
  constructor
  · intro h
    simp [fw_fan_target_show, h]
  · intro h hp hx
    have hx' : ¬ ec.xferStatus < 0 := by omega
    subst h
    simp [fw_fan_target_show, ec_get_target_rpm, hp, hx']

/-- Witness for C6: slot 1 rejects without a transport call; slot 0 reads 5000. -/
theorem C6_target_show_witness :
    fw_fan_target_show ecOk 1 0 = (-EINVAL, 0) ∧
    fw_fan_target_show ecOk 0 0 = (5000, 1) :=
  ⟨(C6_target_show ecOk 1 0).1 (by decide),
   (C6_target_show ecOk 0 0).2 rfl rfl (by decide)⟩

/--
Claim C7: whenever the backlight brightness read fails, whether the
transport handle is unresolved or the exchange returns a negative status,
kb_led_get returns brightness 0 rather than propagating an error; its
return is a plain brightness, so no -ENODEV or - EIO can surface.
-/
theorem C7_kb_led_get_degrades (ec : CrosEC)
    (h : ec.present = false ∨ ec.xferStatus < 0) : kb_led_get ec = 0 := by
  rcases h with h | h
  · simp [kb_led_get, h]
  · rcases hp : ec.present with _ | _
    · simp [kb_led_get, hp]
    · simp [kb_led_get, hp, h]

/-- Witness for C7: unresolved transport and failing exchange both read 0. -/
theorem C7_kb_led_get_degrades_witness :
    (ecAbsent.present = false ∨ ecAbsent.xferStatus < 0) ∧ kb_led_get ecAbsent = 0 ∧
    (ecFailing.present = false ∨ ecFailing.xferStatus < 0) ∧ kb_led_get ecFailing = 0 :=
  ⟨Or.inl rfl, C7_kb_led_get_degrades ecAbsent (Or.inl rfl),
   Or.inr (by decide), C7_kb_led_get_degrades ecFailing (Or.inr (by decide))⟩

/--
Claim C8: set_brightness 60 delivers percent 60 to the transport; against
a transport that echoes back duty = 60 * EC_PWM_MAX_DUTY / 100, the
subsequent get_brightness read, whose conversion is the floor division
ec_duty * 100 / EC_PWM_MAX_DUTY, yields 60.
-/
theorem C8_backlight_round_trip :
    (kb_led_set ecOk 60).1 = 0 ∧ (kb_led_set ecOk 60).2 = [60] ∧
    kb_led_get { ecOk with duty := 60 * EC_PWM_MAX_DUTY / 100 } = 60 := by
  refine ⟨?_, ?_, ?_⟩ <;> decide

/--
Claim C9 (counterexample): the claim says set_brightness fails with
-ENODEV when the transport handle is unresolved, but kb_led_set returns
- EIO in that case (framework_laptop.c:162), not -ENODEV.
-/
theorem C9_counterexample :
    (kb_led_set ecAbsent 42).1 = - EIO ∧ (kb_led_set ecAbsent 42).1 ≠ -ENODEV := by
  refine ⟨?_, ?_⟩ <;> decide

/--
Claim C9 as amended: for every brightness value, kb_led_set fails with
the I/O failure error - EIO both when the transport handle is unresolved
and when the transport exchange returns a negative status.
-/
theorem C9_set_brightness_errors (ec : CrosEC) (value : Nat)
    (h : ec.present = false ∨ ec.xferStatus < 0) :
    (kb_led_set ec value).1 = - EIO := by
  rcases h with h | h
  · simp [kb_led_set, h]
  · rcases hp : ec.present with _ | _
    · simp [kb_led_set, hp]
    · simp [kb_led_set, hp, h]

/-- Witness for C9 (amended): both failure modes return - EIO for value 42. -/
theorem C9_set_brightness_errors_witness :
    (ecAbsent.present = false ∨ ecAbsent.xferStatus < 0) ∧
    (kb_led_set ecAbsent 42).1 = - EIO ∧
    (ecFailing.present = false ∨ ecFailing.xferStatus < 0) ∧
    (kb_led_set ecFailing 42).1 = - EIO :=
  ⟨Or.inl rfl, C9_set_brightness_errors ecAbsent 42 (Or.inl rfl),
   Or.inr (by decide), C9_set_brightness_errors ecFailing 42 (Or.inr (by decide))⟩

end FrameworkLaptop
